import Mathlib

/-
  Shallow embedding of `withToken` from src/index.ts of axios-plugin-jwt.

  The source installs two interceptors on an axios instance:
    * a request interceptor that reads the access token from the store and,
      when the token is truthy, sets the Authorization header to
      `authHeaderPrefix + token`;
    * a response error interceptor that, on a 401 for a request not yet
      marked `_retry`, either enqueues the request on `failedQueue` (when
      `isRefreshing` is already true) or becomes the driver of a refresh
      cycle (sets `isRefreshing`, fetches the refresh token, POSTs to the
      refresh endpoint, stores the new tokens, drains the queue, retries the
      original request; on any failure drains the queue with the error,
      removes the tokens and invokes the failure callback).

  JavaScript truthiness matters in three places of the source and is modelled
  explicitly: a `string | null` token is truthy iff it is non-null and
  non-empty; thrown error values are modelled by the type `Err` and treated
  as truthy (the source only ever throws `Error` objects or rethrows
  rejections, which are assumed truthy).

  Effects are modelled by an explicit event trace (`Ev`) plus the results the
  external collaborators (store functions, the refresh POST, the failure
  callback) would return, packaged in `RefreshEnv`.  The single-threaded
  event-loop semantics of JavaScript is modelled by running the synchronous
  prefix of each interceptor activation atomically (`arrivalStep`) and by
  letting arrivals interleave only at suspension points.
-/

namespace AxiosJwt

/-- Opaque error values (JavaScript thrown or rejected values). -/
inductive Err where
  /-- the `new Error("No refresh token available")` thrown by the source -/
  | noRefreshToken : Err
  /-- a rejection coming from a user-supplied store function -/
  | storeError (tag : String) : Err
  /-- an axios error carrying a response status -/
  | httpError (status : Nat) : Err
  /-- any other rejection value -/
  | other (tag : String) : Err
deriving Repr, DecidableEq

/-- JavaScript truthiness of a `string | null | undefined` value. -/
def truthyOpt : Option String → Bool
  | none => false
  | some s => s ≠ ""

/-- Request headers.  `authorization` models the `Authorization` entry; all
other header entries are carried opaquely in `rest` and never touched by the
plugin.  Axios guarantees `config.headers` exists on an
`InternalAxiosRequestConfig`, so the source's defensive `config.headers`
truthiness checks are vacuous here. -/
structure Headers where
  authorization : Option String
  rest : List (String × String)
deriving Repr, DecidableEq

/-- An axios request config, restricted to the fields the plugin reads or
writes.  `retryMark` models the `_retry` flag the source attaches to
`originalRequest`. -/
structure RequestConfig where
  url : String
  headers : Headers
  retryMark : Bool
deriving Repr, DecidableEq

/-- An axios response error as seen by the response error interceptor:
`responseStatus` models `error.response?.status` (`none` when there is no
response) and `config` models `error.config`. -/
structure HttpFailure where
  responseStatus : Option Nat
  config : RequestConfig
deriving Repr, DecidableEq

/-- The per-client refresh state: the `isRefreshing` flag and the
`failedQueue` of pending waiters.  Waiters are identified by a numeric id;
the id stands for the `{resolve, reject}` pair pushed by the source. -/
structure CoordState where
  isRefreshing : Bool
  failedQueue : List Nat
deriving Repr, DecidableEq

/-- What happens to one queued waiter when the queue is processed:
its `resolve` continuation is invoked with a token, its `reject`
continuation is invoked with an error, or neither is invoked (the waiter's
promise stays pending forever). -/
inductive WaiterOutcome where
  | resolved (token : String) : WaiterOutcome
  | rejected (e : Err) : WaiterOutcome
  | dropped : WaiterOutcome
deriving Repr, DecidableEq

/-- Embedding of `processQueue(error, token)` (src/index.ts lines 80-89).
For each waiter: `if (error) prom.reject(error); else if (token)
prom.resolve(token);` — an absent error together with a falsy token invokes
neither continuation.  Returns the outcome of each waiter in queue order and
the new queue, which the source resets to `[]`. -/
def processQueue (error : Option Err) (token : Option String) (failedQueue : List Nat) :
    List (Nat × WaiterOutcome) × List Nat :=
  (failedQueue.map (fun w =>
    match error with
    | some e => (w, WaiterOutcome.rejected e)
    | none =>
      match token with
      | some t => if t = "" then (w, WaiterOutcome.dropped) else (w, WaiterOutcome.resolved t)
      | none => (w, WaiterOutcome.dropped)),
   [])

/-- Embedding of the request interceptor (src/index.ts lines 92-101).
`storeResult` is the settled result of `getTokenFn()`: a store rejection, or
`string | null`.  `const token = await getTokenFn(); if (token &&
config.headers) config.headers.Authorization = authHeaderPrefix + token;
return config;` — the rejection handler `(error) => Promise.reject(error)`
passes a failure through unchanged. -/
def requestInterceptor (authHeaderPfx : String)
    (storeResult : Except Err (Option String)) (config : RequestConfig) :
    Except Err RequestConfig :=
  match storeResult with
  | .error e => .error e
  | .ok token =>
    match token with
    | some t =>
      if t = "" then .ok config
      else .ok { config with
                  headers := { config.headers with
                                authorization := some (authHeaderPfx ++ t) } }
    | none => .ok config

/-- The synchronous decision the response error interceptor takes on an
arriving failure, before its first suspension point. -/
inductive ArrivalResult where
  /-- the `return Promise.reject(error)` fall-through: the original error,
  untouched -/
  | rejectedOriginal (e : HttpFailure) : ArrivalResult
  /-- pushed `{resolve, reject}` onto `failedQueue` and suspended;
  `markedConfig` is `originalRequest` after `_retry = true` -/
  | queuedWaiter (id : Nat) (markedConfig : RequestConfig) : ArrivalResult
  /-- set `isRefreshing = true` and proceeds to run the refresh protocol -/
  | becameDriver (markedConfig : RequestConfig) : ArrivalResult
deriving Repr, DecidableEq

/-- Embedding of the synchronous prefix of the response error interceptor
(src/index.ts lines 106-128): check `error.response?.status === 401 &&
!originalRequest._retry`, set `_retry = true`, then branch on `isRefreshing`.
This prefix runs atomically on the JavaScript event loop: no suspension point
occurs between reading and writing `isRefreshing`. -/
def arrivalStep (e : HttpFailure) (freshId : Nat) (s : CoordState) :
    ArrivalResult × CoordState :=
  if e.responseStatus = some 401 ∧ e.config.retryMark = false then
    let marked := { e.config with retryMark := true }
    if s.isRefreshing then
      (.queuedWaiter freshId marked, { s with failedQueue := s.failedQueue ++ [freshId] })
    else
      (.becameDriver marked, { s with isRefreshing := true })
  else
    (.rejectedOriginal e, s)

/-- Body of a refresh-endpoint response, restricted to the fields the default
response adapter reads. -/
structure RefreshResponseBody where
  token : Option String
  accessToken : Option String
  refreshToken : Option String
deriving Repr, DecidableEq

/-- JavaScript `a || b` on `string | undefined` values. -/
def jsOr (a b : Option String) : Option String :=
  match a with
  | some s => if s = "" then b else some s
  | none => b

/-- Embedding of the default `refreshTokenResponseAdapter` (src/index.ts
lines 68-71): `{ token: res.token || res.accessToken, refreshToken:
res.refreshToken }`.  Either component may be absent when the body lacks the
fields. -/
def refreshTokenResponseAdapter (res : RefreshResponseBody) :
    Option String × Option String :=
  (jsOr res.token res.accessToken, res.refreshToken)

/-- Payload sent to the refresh endpoint. -/
structure RefreshPayload where
  refreshToken : String
deriving Repr, DecidableEq

/-- Embedding of the default `refreshTokenPayloadAdapter` (src/index.ts
line 72): `(refreshToken) => ({ refreshToken })`. -/
def refreshTokenPayloadAdapter (refreshToken : String) : RefreshPayload :=
  { refreshToken := refreshToken }

/-- JavaScript template interpolation of `authHeaderPrefix` with a possibly
undefined token, as in the source's backtick templates. -/
def jsTemplate (authHeaderPfx : String) (token : Option String) : String :=
  authHeaderPfx ++ (match token with | some s => s | none => "undefined")

instance instDecEqExcept {ε α : Type} [DecidableEq ε] [DecidableEq α] :
    DecidableEq (Except ε α) := fun a b => by
  cases a <;> cases b
  case error.error e f => exact decidable_of_iff (e = f) (by simp)
  case error.ok e v => exact .isFalse (by simp)
  case ok.error v e => exact .isFalse (by simp)
  case ok.ok v w => exact decidable_of_iff (v = w) (by simp)

/-- Settled results of the external collaborators a refresh cycle consults,
in the order the source awaits them. -/
structure RefreshEnv where
  /-- result of `getRefreshTokenFn()` -/
  getRefreshTokenResult : Except Err (Option String)
  /-- result of `axiosInstance.post(refreshTokenEndpoint, payload)`, if made -/
  postResult : Except Err RefreshResponseBody
  /-- result of `setTokenFn(newToken)` -/
  setTokenResult : Except Err Unit
  /-- result of `setRefreshTokenFn(newRefreshToken)` -/
  setRefreshTokenResult : Except Err Unit
  /-- result of `removeTokenFn()` -/
  removeTokenResult : Except Err Unit
  /-- whether an `onRefreshFailure` callback was configured -/
  hasOnRefreshFailure : Bool
  /-- result of `onRefreshFailure(err)`, if configured and invoked -/
  onRefreshFailureResult : Except Err Unit
deriving Repr, DecidableEq

/-- Observable events of one refresh cycle, in program order. -/
inductive Ev where
  | callGetRefreshToken : Ev
  /-- the network POST to `refreshTokenEndpoint` with the adapted payload -/
  | postRefresh (payload : RefreshPayload) : Ev
  | callSetToken (t : Option String) : Ev
  | callSetRefreshToken (t : Option String) : Ev
  /-- assignment to `axiosInstance.defaults.headers.common["Authorization"]` -/
  | setDefaultAuth (v : String) : Ev
  /-- one waiter's continuation being invoked (or skipped) during a drain -/
  | waiter (id : Nat) (o : WaiterOutcome) : Ev
  | callRemoveToken : Ev
  | callOnRefreshFailure (e : Err) : Ev
deriving Repr, DecidableEq

/-- Outcome of the driving request's interceptor activation. -/
inductive DriverResult where
  /-- `return axiosInstance(originalRequest)` with `newToken` stored and the
  request's Authorization header set to `authHeader` -/
  | retried (newToken : Option String) (authHeader : String) : DriverResult
  /-- the interceptor's promise rejects with `e` -/
  | rejectedWith (e : Err) : DriverResult
deriving Repr, DecidableEq

/-- Result of running one whole refresh cycle. -/
structure CycleResult where
  /-- trace of cycle events in program order -/
  events : List Ev
  /-- what `processQueue` did to each waiter, in queue order -/
  drained : List (Nat × WaiterOutcome)
  /-- outcome for the driving request -/
  result : DriverResult
  /-- coordinator state right after the `finally` clears `isRefreshing` -/
  state : CoordState
deriving Repr, DecidableEq

/-- Steps 132-150 of the source up to (and including) the two token writes:
fetch the refresh token (`if (!refreshToken) throw`), POST the adapted
payload, adapt the response, `await setTokenFn`, `await setRefreshTokenFn`.
Returns the events of this prefix and either the adapted
`(newToken, newRefreshToken)` pair or the error that sends control to the
`catch` block. -/
def refreshAttempt (env : RefreshEnv) :
    List Ev × Except Err (Option String × Option String) :=
  match env.getRefreshTokenResult with
  | .error e => ([.callGetRefreshToken], .error e)
  | .ok none => ([.callGetRefreshToken], .error .noRefreshToken)
  | .ok (some rt) =>
    if rt = "" then ([.callGetRefreshToken], .error .noRefreshToken)
    else
      match env.postResult with
      | .error e =>
          ([.callGetRefreshToken, .postRefresh (refreshTokenPayloadAdapter rt)], .error e)
      | .ok body =>
        let p := refreshTokenResponseAdapter body
        match env.setTokenResult with
        | .error e =>
            ([.callGetRefreshToken, .postRefresh (refreshTokenPayloadAdapter rt),
              .callSetToken p.1], .error e)
        | .ok _ =>
          match env.setRefreshTokenResult with
          | .error e =>
              ([.callGetRefreshToken, .postRefresh (refreshTokenPayloadAdapter rt),
                .callSetToken p.1, .callSetRefreshToken p.2], .error e)
          | .ok _ =>
              ([.callGetRefreshToken, .postRefresh (refreshTokenPayloadAdapter rt),
                .callSetToken p.1, .callSetRefreshToken p.2], .ok p)

/-- Embedding of the `catch` block (src/index.ts lines 164-176):
`processQueue(err, null)`, `await removeTokenFn()`, optionally
`await onRefreshFailure(err)`, `return Promise.reject(err)`.  A rejection of
`removeTokenFn` aborts the block (skipping the callback) and a rejection of
the callback aborts it too; in both cases that rejection, not `err`, becomes
the interceptor's result.  The `finally` sets `isRefreshing = false` in every
case.  `late` models waiters enqueued by new 401 arrivals during the two
awaits of this block — the only suspension points that occur after the drain —
which therefore remain in the queue when the cycle completes. -/
def failurePath (err : Err) (q late : List Nat) (env : RefreshEnv) : CycleResult :=
  let dr := (processQueue (some err) none q).1
  let drainEvs := dr.map (fun x => Ev.waiter x.1 x.2)
  match env.removeTokenResult with
  | .error e2 =>
      { events := drainEvs ++ [.callRemoveToken]
        drained := dr
        result := .rejectedWith e2
        state := { isRefreshing := false, failedQueue := late } }
  | .ok _ =>
    if env.hasOnRefreshFailure then
      match env.onRefreshFailureResult with
      | .error e3 =>
          { events := drainEvs ++ [.callRemoveToken, .callOnRefreshFailure err]
            drained := dr
            result := .rejectedWith e3
            state := { isRefreshing := false, failedQueue := late } }
      | .ok _ =>
          { events := drainEvs ++ [.callRemoveToken, .callOnRefreshFailure err]
            drained := dr
            result := .rejectedWith err
            state := { isRefreshing := false, failedQueue := late } }
    else
      { events := drainEvs ++ [.callRemoveToken]
        drained := dr
        result := .rejectedWith err
        state := { isRefreshing := false, failedQueue := late } }

/-- One whole refresh cycle run by a driver (src/index.ts lines 128-179),
with `q` the queue content at the drain point (the driver's own arrival left
the queue untouched; `q` holds the waiters enqueued during the cycle's
pre-drain awaits) and `late` the waiters enqueued during the failure path's
post-drain awaits.  On success: set the default Authorization header,
`processQueue(null, newToken)`, set the request's Authorization header and
reissue it — no suspension point separates the drain from the `finally`, so
the final queue is empty.  On failure: run the `catch` block. -/
def runRefreshCycle (env : RefreshEnv) (authHeaderPfx : String) (q late : List Nat) :
    CycleResult :=
  let a := refreshAttempt env
  match a.2 with
  | .error err =>
    let f := failurePath err q late env
    { events := a.1 ++ f.events
      drained := f.drained
      result := f.result
      state := f.state }
  | .ok p =>
    let dr := (processQueue none p.1 q).1
    { events := a.1 ++ [.setDefaultAuth (jsTemplate authHeaderPfx p.1)] ++
                dr.map (fun x => Ev.waiter x.1 x.2)
      drained := dr
      result := .retried p.1 (jsTemplate authHeaderPfx p.1)
      state := { isRefreshing := false, failedQueue := [] } }

/-- The list `[a, a+1, ..., a+k-1]` of waiter ids. -/
def idsFrom (a k : Nat) : List Nat :=
  match k with
  | 0 => []
  | k + 1 => a :: idsFrom (a + 1) k

/-- A fresh 401 failure for request number `i`: status 401, no retry mark. -/
def mk401 (i : Nat) : HttpFailure :=
  { responseStatus := some 401
    config := { url := toString i, headers := { authorization := none, rest := [] },
                retryMark := false } }

/-- The config of `mk401 i` after the interceptor sets its retry mark. -/
def mkMarked (i : Nat) : RequestConfig :=
  { (mk401 i).config with retryMark := true }

/-- Run the synchronous prefix of the response error interceptor on each
arriving failure in order, assigning waiter ids from `i` upward. -/
def processArrivals : List HttpFailure → Nat → CoordState → List ArrivalResult × CoordState
  | [], _, s => ([], s)
  | e :: rest, i, s =>
    let r := arrivalStep e i s
    let rs := processArrivals rest (i + 1) r.2
    (r.1 :: rs.1, rs.2)

/-- A batch of `k` fresh 401 failures numbered from `a`. -/
def batch (a k : Nat) : List HttpFailure :=
  (idsFrom a k).map mk401

/-- How one request's interceptor activation ends, seen by its caller. -/
inductive ReqOutcome where
  /-- retried through the client with this new credential -/
  | completed (credential : Option String) : ReqOutcome
  /-- rejected with an error from the refresh machinery -/
  | rejected (e : Err) : ReqOutcome
  /-- rejected with its own original response error -/
  | rejectedOriginal (e : HttpFailure) : ReqOutcome
  /-- its promise never settles -/
  | pending : ReqOutcome
deriving Repr, DecidableEq

/-- Outcome of the driving request, from the cycle's `DriverResult`. -/
def driverOutcome : DriverResult → ReqOutcome
  | .retried newToken _ => .completed newToken
  | .rejectedWith e => .rejected e

/-- Outcome of a queued request: its waiter's continuation, if invoked,
either resumes it with the new token (the source then sets the Authorization
header and reissues the request) or rejects it; a waiter whose continuations
are never invoked leaves the request pending forever. -/
def queuedOutcome (dr : List (Nat × WaiterOutcome)) (i : Nat) : ReqOutcome :=
  match dr.lookup i with
  | some (.resolved t) => .completed (some t)
  | some (.rejected e) => .rejected e
  | some .dropped => .pending
  | none => .pending

/-- Outcome of each arrival of a batch, given the refresh cycle's result. -/
def outcomesOf (rs : List ArrivalResult) (c : CycleResult) : List ReqOutcome :=
  rs.map (fun r =>
    match r with
    | .rejectedOriginal e => .rejectedOriginal e
    | .queuedWaiter i _ => queuedOutcome c.drained i
    | .becameDriver _ => driverOutcome c.result)

/-- Number of refresh network calls in a trace. -/
def postCount (evs : List Ev) : Nat :=
  evs.countP (fun ev => match ev with | .postRefresh _ => true | _ => false)

/-- Number of invocations of the failure callback in a trace. -/
def cbCount (evs : List Ev) : Nat :=
  evs.countP (fun ev => match ev with | .callOnRefreshFailure _ => true | _ => false)

/-- Whether a refresh credential is available: `getRefreshTokenFn` resolves
with a truthy string, so the cycle reaches the network POST. -/
def hasRefreshCred (env : RefreshEnv) : Bool :=
  match env.getRefreshTokenResult with
  | .ok (some t) => t ≠ ""
  | _ => false

/-- What `processQueue` does to every waiter of the cycle's drain, as a
function of the environment: reject with the error on failure, resolve with
the new token on success when it is truthy, drop it otherwise. -/
def cycleWaiterOutcome (env : RefreshEnv) : WaiterOutcome :=
  match (refreshAttempt env).2 with
  | .error err => .rejected err
  | .ok p =>
    match p.1 with
    | some t => if t = "" then .dropped else .resolved t
    | none => .dropped

/-- A refresh environment whose outcome settles every involved request the
same way: a success with a truthy token, or a failure whose cleanup steps
(`removeTokenFn` and the optional callback) themselves succeed. -/
def cleanOutcome (env : RefreshEnv) : Bool :=
  match (refreshAttempt env).2 with
  | .ok p => truthyOpt p.1
  | .error _ =>
    (match env.removeTokenResult with | .ok _ => true | .error _ => false) &&
    (!env.hasOnRefreshFailure ||
      (match env.onRefreshFailureResult with | .ok _ => true | .error _ => false))

/-- The whole modelled scenario behind the single-flight property: `n`
requests fail with 401 while the coordinator is idle, the first becomes the
refresh driver and the rest are enqueued; the driver then runs the cycle
against `env` and every request's outcome is collected in arrival order. -/
def runConcurrent401s (n : Nat) (env : RefreshEnv) (authHeaderPfx : String) :
    List ReqOutcome × CycleResult :=
  let a := processArrivals (batch 0 n) 0 { isRefreshing := false, failedQueue := [] }
  let c := runRefreshCycle env authHeaderPfx a.2.failedQueue []
  (outcomesOf a.1 c, c)

/-- A refresh environment in which everything succeeds, the refresh endpoint
answering with token `abc2` and refresh token `r2` (spec Scenario C). -/
def envOk : RefreshEnv :=
  { getRefreshTokenResult := .ok (some "r1")
    postResult := .ok { token := some "abc2", accessToken := none, refreshToken := some "r2" }
    setTokenResult := .ok ()
    setRefreshTokenResult := .ok ()
    removeTokenResult := .ok ()
    hasOnRefreshFailure := true
    onRefreshFailureResult := .ok () }

/-- A refresh environment with no refresh credential in the store
(spec Scenario E): the cycle fails before any network call. -/
def envNoCred : RefreshEnv :=
  { envOk with getRefreshTokenResult := .ok none }

/-- A refresh environment whose refresh call succeeds but whose response body
carries an empty token, so the adapted credential is falsy. -/
def envEmptyTok : RefreshEnv :=
  { envOk with
    postResult := .ok { token := some "", accessToken := none, refreshToken := some "r2" } }

/-- A refresh environment where the cycle fails (no refresh credential) and
`removeTokenFn` itself rejects. -/
def envRemoveFails : RefreshEnv :=
  { envNoCred with removeTokenResult := .error (.storeError "remove") }

/-- A refresh environment whose refresh call succeeds with empty `token` and
`accessToken` fields, so the default adapter yields the empty string. -/
def envBothEmpty : RefreshEnv :=
  { envOk with
    postResult := .ok { token := some "", accessToken := some "", refreshToken := some "r2" } }

/-- The request outcome produced by a waiter's fate: a resolved waiter's
request is reissued with the new token, a rejected waiter's request rejects
with the error, a dropped waiter's request stays pending. -/
def interpWaiter : WaiterOutcome → ReqOutcome
  | .resolved t => .completed (some t)
  | .rejected e => .rejected e
  | .dropped => .pending

lemma batch_cons (a k : Nat) : batch a (k + 1) = mk401 a :: batch (a + 1) k := by
  simp [batch, idsFrom]

lemma idsFrom_length (a k : Nat) : (idsFrom a k).length = k := by
  induction k generalizing a with
  | zero => rfl
  | succ k ih => simp [idsFrom, ih]

lemma arrivalStep_401_refreshing (j i : Nat) (q : List Nat) :
    arrivalStep (mk401 j) i { isRefreshing := true, failedQueue := q } =
      (.queuedWaiter i (mkMarked j), { isRefreshing := true, failedQueue := q ++ [i] }) := by
  simp [arrivalStep, mk401, mkMarked]

lemma arrivalStep_401_idle (j i : Nat) (q : List Nat) :
    arrivalStep (mk401 j) i { isRefreshing := false, failedQueue := q } =
      (.becameDriver (mkMarked j), { isRefreshing := true, failedQueue := q }) := by
  simp [arrivalStep, mk401, mkMarked]

lemma processArrivals_refreshing (k : Nat) : ∀ (a : Nat) (q : List Nat),
    processArrivals (batch a k) a { isRefreshing := true, failedQueue := q } =
      ((idsFrom a k).map (fun j => .queuedWaiter j (mkMarked j)),
       { isRefreshing := true, failedQueue := q ++ idsFrom a k }) := by
  induction k with
  | zero => intro a q; simp [batch, idsFrom, processArrivals]
  | succ k ih =>
    intro a q
    rw [batch_cons]
    simp only [processArrivals, arrivalStep_401_refreshing]
    rw [ih (a + 1) (q ++ [a])]
    simp [idsFrom]

lemma processArrivals_fromIdle (m : Nat) :
    processArrivals (batch 0 (m + 1)) 0 { isRefreshing := false, failedQueue := [] } =
      (.becameDriver (mkMarked 0) :: (idsFrom 1 m).map (fun j => .queuedWaiter j (mkMarked j)),
       { isRefreshing := true, failedQueue := idsFrom 1 m }) := by
  rw [batch_cons]
  simp only [processArrivals, arrivalStep_401_idle]
  rw [processArrivals_refreshing m 1 []]
  simp

lemma lookup_map_const {β : Type} (q : List Nat) (x : Nat) (c : β) (hx : x ∈ q) :
    List.lookup x (q.map (fun w => (w, c))) = some c := by
  induction q with
  | nil => cases hx
  | cons a t ih =>
    by_cases hax : x = a
    · simp [List.lookup, hax]
    · have hb : (x == a) = false := beq_eq_false_iff_ne.mpr hax
      rcases List.mem_cons.mp hx with h | h
      · exact absurd h hax
      · simpa [List.lookup, hb] using ih h

lemma queuedOutcome_map_const (q : List Nat) (x : Nat) (c : WaiterOutcome) (hx : x ∈ q) :
    queuedOutcome (q.map (fun w => (w, c))) x = interpWaiter c := by
  unfold queuedOutcome
  rw [lookup_map_const q x c hx]
  cases c <;> rfl

lemma map_const_on_mem {α β : Type} (l : List α) (f : α → β) (c : β)
    (h : ∀ x ∈ l, f x = c) : l.map f = List.replicate l.length c := by
  induction l with
  | nil => rfl
  | cons a t ih =>
    simp only [List.map_cons, List.length_cons, List.replicate_succ]
    rw [h a (List.mem_cons_self a t), ih (fun x hx => h x (List.mem_cons_of_mem a hx))]

lemma failurePath_drained (err : Err) (q late : List Nat) (env : RefreshEnv) :
    (failurePath err q late env).drained = q.map (fun w => (w, WaiterOutcome.rejected err)) := by
  unfold failurePath
  cases env.removeTokenResult with
  | error e => simp [processQueue]
  | ok u =>
    by_cases hcb : env.hasOnRefreshFailure
    · cases h2 : env.onRefreshFailureResult <;> simp [hcb, h2, processQueue]
    · simp [hcb, processQueue]

lemma failurePath_state (err : Err) (q late : List Nat) (env : RefreshEnv) :
    (failurePath err q late env).state = { isRefreshing := false, failedQueue := late } := by
  unfold failurePath
  cases env.removeTokenResult with
  | error e => simp
  | ok u =>
    by_cases hcb : env.hasOnRefreshFailure
    · cases h2 : env.onRefreshFailureResult <;> simp [hcb, h2]
    · simp [hcb]

lemma cycle_drained (env : RefreshEnv) (pfx : String) (q late : List Nat) :
    (runRefreshCycle env pfx q late).drained = q.map (fun w => (w, cycleWaiterOutcome env)) := by
  unfold runRefreshCycle cycleWaiterOutcome
  cases h : (refreshAttempt env).2 with
  | error err => simp [h, failurePath_drained]
  | ok p =>
    rcases p with ⟨p1, p2⟩
    cases p1 with
    | none => simp [h, processQueue]
    | some t => by_cases ht : t = "" <;> simp [h, processQueue, ht]

lemma cycle_state (env : RefreshEnv) (pfx : String) (q late : List Nat) :
    (runRefreshCycle env pfx q late).state =
      { isRefreshing := false
        failedQueue := match (refreshAttempt env).2 with | .ok _ => [] | .error _ => late } := by
  unfold runRefreshCycle
  cases h : (refreshAttempt env).2 with
  | error err => simp [h, failurePath_state]
  | ok p => simp [h]

lemma postCount_waiterEvs (l : List (Nat × WaiterOutcome)) :
    postCount (l.map (fun x => Ev.waiter x.1 x.2)) = 0 := by
  induction l with
  | nil => rfl
  | cons x t ih => simp [postCount, List.countP_cons, ih]

lemma cbCount_waiterEvs (l : List (Nat × WaiterOutcome)) :
    cbCount (l.map (fun x => Ev.waiter x.1 x.2)) = 0 := by
  induction l with
  | nil => rfl
  | cons x t ih => simp [cbCount, List.countP_cons, ih]

lemma postCount_failurePath (err : Err) (q late : List Nat) (env : RefreshEnv) :
    postCount (failurePath err q late env).events = 0 := by
  unfold failurePath
  cases env.removeTokenResult with
  | error e => simp [postCount, List.countP_append, List.countP_cons]
  | ok u =>
    by_cases hcb : env.hasOnRefreshFailure
    · cases h2 : env.onRefreshFailureResult <;>
        simp [hcb, h2, postCount, List.countP_append, List.countP_cons]
    · simp [hcb, postCount, List.countP_append, List.countP_cons]

lemma refreshAttempt_counts (env : RefreshEnv) :
    postCount (refreshAttempt env).1 = (if hasRefreshCred env then 1 else 0) ∧
      cbCount (refreshAttempt env).1 = 0 := by
  unfold refreshAttempt hasRefreshCred
  rcases env with ⟨g, p, s1, s2, rm, hc, cb⟩
  cases g with
  | error e => simp [postCount, cbCount, List.countP_cons]
  | ok o =>
    cases o with
    | none => simp [postCount, cbCount, List.countP_cons]
    | some rt =>
      by_cases hrt : rt = ""
      · simp [hrt, postCount, cbCount, List.countP_cons]
      · cases p with
        | error e => simp [hrt, postCount, cbCount, List.countP_cons]
        | ok body =>
          cases s1 with
          | error e => simp [hrt, postCount, cbCount, List.countP_cons]
          | ok u =>
            cases s2 with
            | error e => simp [hrt, postCount, cbCount, List.countP_cons]
            | ok u2 => simp [hrt, postCount, cbCount, List.countP_cons]

lemma postCount_cycle (env : RefreshEnv) (pfx : String) (q late : List Nat) :
    postCount (runRefreshCycle env pfx q late).events = postCount (refreshAttempt env).1 := by
  unfold runRefreshCycle
  cases h : (refreshAttempt env).2 with
  | error err =>
    have hf := postCount_failurePath err q late env
    simp only [h]
    simp only [postCount, List.countP_append] at hf ⊢
    simp [hf]
  | ok p =>
    simp only [h]
    simp [postCount, List.countP_append, List.countP_cons]

lemma cbCount_waiterMap (q : List Nat) (f : Nat → WaiterOutcome) :
    cbCount (q.map (fun w => Ev.waiter w (f w))) = 0 := by
  induction q with
  | nil => rfl
  | cons x t ih => simp [cbCount, List.countP_cons, ih]

lemma driver_clean (env : RefreshEnv) (pfx : String) (q late : List Nat)
    (h : cleanOutcome env = true) :
    driverOutcome (runRefreshCycle env pfx q late).result = interpWaiter (cycleWaiterOutcome env) := by
  unfold cleanOutcome at h
  unfold runRefreshCycle cycleWaiterOutcome
  cases h2 : (refreshAttempt env).2 with
  | ok p =>
    rw [h2] at h
    rcases p with ⟨p1, p2⟩
    cases p1 with
    | none => simp [truthyOpt] at h
    | some t =>
      simp only [truthyOpt] at h
      have ht : t ≠ "" := by simpa using h
      simp [h2, driverOutcome, interpWaiter, ht]
  | error err =>
    rw [h2] at h
    unfold failurePath
    cases hrm : env.removeTokenResult with
    | error e2 => rw [hrm] at h; simp at h
    | ok u =>
      by_cases hcb : env.hasOnRefreshFailure
      · cases h3 : env.onRefreshFailureResult with
        | error e3 => rw [hrm, hcb, h3] at h; simp at h
        | ok u2 => simp [h2, hrm, hcb, h3, driverOutcome, interpWaiter]
      · simp [h2, hrm, hcb, driverOutcome, interpWaiter]

/-- C7: for every outgoing request, the request interceptor sets its
Authorization header to the configured prefix concatenated with the
credential when the store returns one, returns the request descriptor
unchanged (no Authorization header added) when the store returns none, and
propagates a store failure without producing a modified request; no other
field of the request is touched. -/
theorem c7_request_injection :
    (∀ (pfx : String) (cfg : RequestConfig) (t : String), t ≠ "" →
      requestInterceptor pfx (.ok (some t)) cfg =
        .ok { cfg with headers := { cfg.headers with authorization := some (pfx ++ t) } }) ∧
    (∀ (pfx : String) (cfg : RequestConfig),
      requestInterceptor pfx (.ok none) cfg = .ok cfg) ∧
    (∀ (pfx : String) (cfg : RequestConfig) (e : Err),
      requestInterceptor pfx (.error e) cfg = .error e) := by
  refine ⟨?_, ?_, ?_⟩
  · intro pfx cfg t ht
    simp [requestInterceptor, ht]
  · intro pfx cfg; rfl
  · intro pfx cfg e; rfl

/-- Witness for C7: with the default prefix and credential `abc` the header
becomes `Bearer abc` (spec Scenario A). -/
theorem c7_request_injection_witness :
    requestInterceptor "Bearer " (.ok (some "abc"))
        { url := "u", headers := { authorization := none, rest := [] }, retryMark := false } =
      .ok { url := "u", headers := { authorization := some "Bearer abc", rest := [] },
            retryMark := false } :=
  c7_request_injection.1 "Bearer "
    { url := "u", headers := { authorization := none, rest := [] }, retryMark := false }
    "abc" (by decide)

/-- C10: an empty-string credential from the store is falsy in the source's
`if (token && config.headers)` test, so it is treated exactly like an absent
credential: no Authorization header is attached and the request descriptor is
returned unchanged. -/
theorem c10_empty_token_like_absent (pfx : String) (cfg : RequestConfig) :
    requestInterceptor pfx (.ok (some "")) cfg = .ok cfg := by
  simp [requestInterceptor]

/-- C8: a response error that is not a first-attempt authorization failure —
a non-401 status, an error with no response status, or a 401 on an
already-retried request — is rejected immediately with the original error,
with no refresh attempt, nothing enqueued, and the refreshing flag and queue
untouched. -/
theorem c8_non_auth_passthrough (e : HttpFailure) (i : Nat) (s : CoordState)
    (h : ¬(e.responseStatus = some 401 ∧ e.config.retryMark = false)) :
    arrivalStep e i s = (.rejectedOriginal e, s) := by
  unfold arrivalStep
  rw [if_neg h]

/-- Witness for C8: a 500 error passes through untouched (spec Scenario F). -/
theorem c8_non_auth_passthrough_witness :
    arrivalStep
        { responseStatus := some 500,
          config := { url := "u", headers := { authorization := none, rest := [] },
                      retryMark := false } }
        0 { isRefreshing := false, failedQueue := [] } =
      (.rejectedOriginal
         { responseStatus := some 500,
           config := { url := "u", headers := { authorization := none, rest := [] },
                       retryMark := false } },
       { isRefreshing := false, failedQueue := [] }) :=
  c8_non_auth_passthrough _ 0 _ (by decide)

/-- C3: no request is retried more than once due to authorization failure:
the interceptor sets the retry mark on a first-401 request before retrying or
queueing it, and a 401 on a request already carrying the mark falls through
to `Promise.reject(error)` with no refresh attempt and no state change, so no
infinite retry loop is possible. -/
theorem c3_no_retry_loop :
    (∀ (e : HttpFailure) (i : Nat) (s : CoordState), e.config.retryMark = true →
      arrivalStep e i s = (.rejectedOriginal e, s)) ∧
    (∀ (e : HttpFailure) (i : Nat) (s : CoordState),
      e.responseStatus = some 401 → e.config.retryMark = false → s.isRefreshing = false →
      arrivalStep e i s =
        (.becameDriver { e.config with retryMark := true }, { s with isRefreshing := true })) ∧
    (∀ (e : HttpFailure) (i : Nat) (s : CoordState),
      e.responseStatus = some 401 → e.config.retryMark = false → s.isRefreshing = true →
      arrivalStep e i s =
        (.queuedWaiter i { e.config with retryMark := true },
         { s with failedQueue := s.failedQueue ++ [i] })) := by
  refine ⟨?_, ?_, ?_⟩
  · intro e i s h
    unfold arrivalStep
    rw [if_neg (by simp [h])]
  · intro e i s h1 h2 h3
    simp [arrivalStep, h1, h2, h3]
  · intro e i s h1 h2 h3
    simp [arrivalStep, h1, h2, h3]

/-- Witness for C3: a marked 401 request is propagated unchanged. -/
theorem c3_no_retry_loop_witness :
    arrivalStep
        { responseStatus := some 401,
          config := { url := "u", headers := { authorization := none, rest := [] },
                      retryMark := true } }
        0 { isRefreshing := false, failedQueue := [] } =
      (.rejectedOriginal
         { responseStatus := some 401,
           config := { url := "u", headers := { authorization := none, rest := [] },
                       retryMark := true } },
       { isRefreshing := false, failedQueue := [] }) :=
  c3_no_retry_loop.1 _ 0 _ rfl

/-- C4 evaluation (code bug): the refresh POST is issued through the same
instance whose interceptors are installed, so a 401 answered to the refresh
call itself — status 401, no retry mark, arriving while `isRefreshing` is
true — is pushed onto `failedQueue` as a pending waiter.  The driver is
awaiting that very call and only the driver drains the queue, so the cycle
deadlocks; the spec requires that the refresh response never re-trigger the
authorization-failure branch. -/
theorem c4_refresh_401_enqueued :
    arrivalStep
        { responseStatus := some 401,
          config := { url := "/auth/refresh-token",
                      headers := { authorization := none, rest := [] }, retryMark := false } }
        2 { isRefreshing := true, failedQueue := [1] } =
      (.queuedWaiter 2
         { url := "/auth/refresh-token", headers := { authorization := none, rest := [] },
           retryMark := true },
       { isRefreshing := true, failedQueue := [1, 2] }) := by
  decide

/-- C2 (amended): in every refresh cycle, each waiter present in the queue at
the drain point is acted on exactly once — rejected with the error on
failure, resolved with the new credential on success when that credential is
truthy, and dropped (its promise left pending forever) when it is falsy — and
the drain empties the queue; however, waiters enqueued during the failure
path's awaited cleanup steps remain in the queue when the cycle completes. -/
theorem c2_drain_exactly_once (env : RefreshEnv) (pfx : String) (q late : List Nat) :
    (runRefreshCycle env pfx q late).drained = q.map (fun w => (w, cycleWaiterOutcome env)) ∧
    (runRefreshCycle env pfx q late).state =
      { isRefreshing := false
        failedQueue := match (refreshAttempt env).2 with | .ok _ => [] | .error _ => late } :=
  ⟨cycle_drained env pfx q late, cycle_state env pfx q late⟩

/-- C2 counterexample: a successful refresh whose adapted credential is empty
drops the queued waiter — it is neither resolved nor rejected — and a cycle
that fails while a new 401 arrives during its cleanup awaits completes with a
non-empty queue. -/
theorem c2_counterexample :
    (runRefreshCycle envEmptyTok "Bearer " [5] []).drained =
        [(5, WaiterOutcome.dropped)] ∧
    (runRefreshCycle envRemoveFails "Bearer " [] [9]).state.failedQueue ≠ [] := by
  decide

/-- C9: when the refresh cycle fails with some error and `removeTokenFn`
itself rejects, the queued waiters have already been rejected with the
refresh error, the failure callback is never invoked for that cycle, and the
store-removal error — not the refresh error — propagates to the driving
caller. -/
theorem c9_remove_failure_skips_callback (env : RefreshEnv) (pfx : String)
    (q late : List Nat) (err e2 : Err)
    (hfail : (refreshAttempt env).2 = .error err)
    (hrm : env.removeTokenResult = .error e2) :
    runRefreshCycle env pfx q late =
      { events := (refreshAttempt env).1 ++ q.map (fun w => Ev.waiter w (.rejected err)) ++
                  [.callRemoveToken]
        drained := q.map (fun w => (w, WaiterOutcome.rejected err))
        result := .rejectedWith e2
        state := { isRefreshing := false, failedQueue := late } } ∧
    cbCount (runRefreshCycle env pfx q late).events = 0 := by
  have h1 : runRefreshCycle env pfx q late =
      { events := (refreshAttempt env).1 ++ q.map (fun w => Ev.waiter w (.rejected err)) ++
                  [.callRemoveToken]
        drained := q.map (fun w => (w, WaiterOutcome.rejected err))
        result := .rejectedWith e2
        state := { isRefreshing := false, failedQueue := late } } := by
    unfold runRefreshCycle failurePath
    simp [hfail, hrm, processQueue, Function.comp]
  refine ⟨h1, ?_⟩
  rw [h1]
  have h2 := (refreshAttempt_counts env).2
  simp only [cbCount, List.countP_append, List.countP_cons] at h2 ⊢
  simp [h2, cbCount_waiterMap q (fun _ => WaiterOutcome.rejected err), cbCount]

/-- Witness for C9 at a concrete failing environment. -/
theorem c9_remove_failure_skips_callback_witness :
    runRefreshCycle envRemoveFails "Bearer " [1] [] =
      { events := (refreshAttempt envRemoveFails).1 ++
                  [Ev.waiter 1 (.rejected .noRefreshToken)] ++ [.callRemoveToken]
        drained := [(1, WaiterOutcome.rejected .noRefreshToken)]
        result := .rejectedWith (.storeError "remove")
        state := { isRefreshing := false, failedQueue := [] } } ∧
    cbCount (runRefreshCycle envRemoveFails "Bearer " [1] []).events = 0 :=
  c9_remove_failure_skips_callback envRemoveFails "Bearer " [1] []
    Err.noRefreshToken (Err.storeError "remove") rfl rfl

/-- C5 (amended): for every refresh cycle that fails at any step (including a
missing refresh credential), provided `removeTokenFn` and the configured
failure callback themselves succeed, the coordinator rejects every queued
waiter in FIFO order with the refresh error, then removes the stored
credentials, then invokes the failure callback exactly once with that error
(awaited, after the removal), and propagates the refresh error — not the
original request's error — to the driving caller and to every queued caller. -/
theorem c5_failure_path (env : RefreshEnv) (pfx : String) (q late : List Nat) (err : Err)
    (hfail : (refreshAttempt env).2 = .error err)
    (hrm : env.removeTokenResult = .ok ())
    (hcb : env.hasOnRefreshFailure = true)
    (hcbok : env.onRefreshFailureResult = .ok ()) :
    runRefreshCycle env pfx q late =
      { events := (refreshAttempt env).1 ++ q.map (fun w => Ev.waiter w (.rejected err)) ++
                  [.callRemoveToken, .callOnRefreshFailure err]
        drained := q.map (fun w => (w, WaiterOutcome.rejected err))
        result := .rejectedWith err
        state := { isRefreshing := false, failedQueue := late } } ∧
    cbCount (runRefreshCycle env pfx q late).events = 1 := by
  have h1 : runRefreshCycle env pfx q late =
      { events := (refreshAttempt env).1 ++ q.map (fun w => Ev.waiter w (.rejected err)) ++
                  [.callRemoveToken, .callOnRefreshFailure err]
        drained := q.map (fun w => (w, WaiterOutcome.rejected err))
        result := .rejectedWith err
        state := { isRefreshing := false, failedQueue := late } } := by
    unfold runRefreshCycle failurePath
    simp [hfail, hrm, hcb, hcbok, processQueue, Function.comp]
  refine ⟨h1, ?_⟩
  rw [h1]
  have h2 := (refreshAttempt_counts env).2
  simp only [cbCount, List.countP_append, List.countP_cons] at h2 ⊢
  simp [h2, cbCount_waiterMap q (fun _ => WaiterOutcome.rejected err), cbCount]

/-- Witness for C5: a missing refresh credential with two queued waiters
(spec Scenario E). -/
theorem c5_failure_path_witness :
    runRefreshCycle envNoCred "Bearer " [1, 2] [] =
      { events := (refreshAttempt envNoCred).1 ++
                  [Ev.waiter 1 (.rejected .noRefreshToken),
                   Ev.waiter 2 (.rejected .noRefreshToken)] ++
                  [.callRemoveToken, .callOnRefreshFailure .noRefreshToken]
        drained := [(1, WaiterOutcome.rejected .noRefreshToken),
                    (2, WaiterOutcome.rejected .noRefreshToken)]
        result := .rejectedWith .noRefreshToken
        state := { isRefreshing := false, failedQueue := [] } } ∧
    cbCount (runRefreshCycle envNoCred "Bearer " [1, 2] []).events = 1 :=
  c5_failure_path envNoCred "Bearer " [1, 2] [] Err.noRefreshToken rfl rfl rfl rfl

/-- C5 counterexample: in a cycle that fails because no refresh credential is
available while `removeTokenFn` also rejects, the refresh error is
`noRefreshToken`, yet the failure callback is invoked zero times — not
exactly once — and the propagated error is the removal error, not the refresh
error. -/
theorem c5_counterexample :
    (runRefreshCycle envRemoveFails "Bearer " [7] []).result ≠
        .rejectedWith Err.noRefreshToken ∧
    cbCount (runRefreshCycle envRemoveFails "Bearer " [7] []).events = 0 ∧
    (refreshAttempt envRemoveFails).2 = .error Err.noRefreshToken := by
  decide

/-- C6 (amended): for every refresh cycle that succeeds with a truthy adapted
credential, the coordinator extracts the credential pair via the response
adapter, persists both parts via the configured setters, updates the client's
default Authorization header to the prefix concatenated with the new
credential, resolves every queued waiter in FIFO insertion order with the new
credential, and reissues the driving request with its Authorization header
set to the new credential.  When the adapted credential is falsy, the queued
waiters are dropped instead — see the counterexample. -/
theorem c6_success_path (env : RefreshEnv) (pfx : String) (q late : List Nat)
    (rt t : String) (body : RefreshResponseBody)
    (hg : env.getRefreshTokenResult = .ok (some rt)) (hrt : rt ≠ "")
    (hp : env.postResult = .ok body)
    (hs1 : env.setTokenResult = .ok ()) (hs2 : env.setRefreshTokenResult = .ok ())
    (ht : (refreshTokenResponseAdapter body).1 = some t) (htt : t ≠ "") :
    runRefreshCycle env pfx q late =
      { events := [.callGetRefreshToken, .postRefresh (refreshTokenPayloadAdapter rt),
                   .callSetToken (some t),
                   .callSetRefreshToken (refreshTokenResponseAdapter body).2,
                   .setDefaultAuth (pfx ++ t)] ++
                  q.map (fun w => Ev.waiter w (.resolved t))
        drained := q.map (fun w => (w, WaiterOutcome.resolved t))
        result := .retried (some t) (pfx ++ t)
        state := { isRefreshing := false, failedQueue := [] } } := by
  unfold runRefreshCycle refreshAttempt
  simp [hg, hrt, hp, hs1, hs2, ht, htt, processQueue, jsTemplate, Function.comp]

/-- Witness for C6: refresh returns token `abc2` and refresh token `r2`
(spec Scenario C) with two queued waiters. -/
theorem c6_success_path_witness :
    runRefreshCycle envOk "Bearer " [1, 2] [] =
      { events := [.callGetRefreshToken, .postRefresh (refreshTokenPayloadAdapter "r1"),
                   .callSetToken (some "abc2"), .callSetRefreshToken (some "r2"),
                   .setDefaultAuth "Bearer abc2"] ++
                  [Ev.waiter 1 (.resolved "abc2"), Ev.waiter 2 (.resolved "abc2")]
        drained := [(1, WaiterOutcome.resolved "abc2"), (2, WaiterOutcome.resolved "abc2")]
        result := .retried (some "abc2") "Bearer abc2"
        state := { isRefreshing := false, failedQueue := [] } } :=
  c6_success_path envOk "Bearer " [1, 2] [] "r1" "abc2"
    { token := some "abc2", accessToken := none, refreshToken := some "r2" }
    rfl (by decide) rfl rfl rfl rfl (by decide)

/-- C6 counterexample: a refresh call that succeeds with an empty `token`
field retries the driving request, but the queued waiters are dropped rather
than resolved with the new credential. -/
theorem c6_counterexample :
    (runRefreshCycle envBothEmpty "Bearer " [3, 4] []).drained =
        [(3, WaiterOutcome.dropped), (4, WaiterOutcome.dropped)] ∧
    (runRefreshCycle envBothEmpty "Bearer " [3, 4] []).result =
        .retried (some "") "Bearer " := by
  decide

/-- C1 (amended): when n ≥ 1 requests fail with 401 while the coordinator is
idle, exactly one of them becomes the refresh driver and the rest are
enqueued, so at most one refresh network call is made — exactly one whenever
a refresh credential is available in the store — and, provided the cycle's
outcome is clean (a truthy new credential on success, or a failure whose
cleanup functions succeed), all n requests complete with the same resulting
credential or the same rejection, independent of n. -/
theorem c1_single_flight (n : Nat) (env : RefreshEnv) (pfx : String) (hn : 1 ≤ n) :
    postCount (runConcurrent401s n env pfx).2.events ≤ 1 ∧
    (hasRefreshCred env = true → postCount (runConcurrent401s n env pfx).2.events = 1) ∧
    (cleanOutcome env = true →
      (runConcurrent401s n env pfx).1 =
        List.replicate n (interpWaiter (cycleWaiterOutcome env))) := by
  obtain ⟨m, rfl⟩ : ∃ m, n = m + 1 := ⟨n - 1, (Nat.succ_pred_eq_of_pos hn).symm⟩
  have harr := processArrivals_fromIdle m
  have hpost : postCount (runConcurrent401s (m + 1) env pfx).2.events =
      (if hasRefreshCred env then 1 else 0) := by
    unfold runConcurrent401s
    rw [harr]
    rw [postCount_cycle]
    exact (refreshAttempt_counts env).1
  refine ⟨?_, ?_, ?_⟩
  · rw [hpost]
    split <;> simp
  · intro h
    rw [hpost, h]
    simp
  · intro hclean
    unfold runConcurrent401s
    rw [harr]
    simp only [outcomesOf, List.map_cons, List.map_map, List.replicate_succ]
    have hdrv := driver_clean env pfx (idsFrom 1 m) [] hclean
    have hmem : ∀ j ∈ idsFrom 1 m,
        queuedOutcome (runRefreshCycle env pfx (idsFrom 1 m) []).drained j =
          interpWaiter (cycleWaiterOutcome env) := by
      intro j hj
      rw [cycle_drained]
      exact queuedOutcome_map_const _ j _ hj
    rw [map_const_on_mem _ _ (interpWaiter (cycleWaiterOutcome env))
          (fun j hj => by simpa [Function.comp] using hmem j hj),
        idsFrom_length, hdrv]

/-- Witness for C1 with three concurrent 401s against a succeeding refresh
(spec Scenario D): one refresh call, all three requests complete with the new
credential. -/
theorem c1_single_flight_witness :
    (runConcurrent401s 3 envOk "Bearer ").1 =
      List.replicate 3 (ReqOutcome.completed (some "abc2")) ∧
    postCount (runConcurrent401s 3 envOk "Bearer ").2.events = 1 :=
  ⟨(c1_single_flight 3 envOk "Bearer " (by decide)).2.2 (by decide),
   (c1_single_flight 3 envOk "Bearer " (by decide)).2.1 (by decide)⟩

/-- C1 counterexample: with no refresh credential in the store, zero — not
exactly one — refresh network calls are made; with a successful refresh whose
adapted credential is falsy, the driver completes but the queued request
stays pending forever; and when `removeTokenFn` rejects during the failure
path, the driver and the queued request reject with different errors. -/
theorem c1_counterexample :
    postCount (runConcurrent401s 2 envNoCred "Bearer ").2.events = 0 ∧
    (runConcurrent401s 2 envEmptyTok "Bearer ").1 =
      [ReqOutcome.completed none, ReqOutcome.pending] ∧
    (runConcurrent401s 2 envRemoveFails "Bearer ").1 =
      [ReqOutcome.rejected (.storeError "remove"), ReqOutcome.rejected .noRefreshToken] := by
  decide

end AxiosJwt
